import Mathlib

/-
  Verification development for the `syndicatealpha` wallet-tracker
  (src/index.js, class WalletTracker).

  Shallow embedding conventions:
  * JS numbers holding SOL / token amounts are modelled as rationals (ℚ);
    lamport balances are integers (ℤ), converted at the fixed 10^9 ratio.
  * A JS `Map` is modelled as an association list with unique keys;
    `Map.set` replaces in place or appends, `Map.get` looks up the first
    (hence only) matching entry, `Map.delete` removes it.
  * `null`/`undefined` is modelled with `Option`.
  * Wall-clock reads (`Date.now()`) become explicit `now : ℤ` parameters
    (milliseconds); block times are epoch seconds.
-/

namespace SyndicateAlpha

/-- JS `Map.get` / plain-object property read: first matching entry. -/
def mapGet {α β : Type} [DecidableEq α] : List (α × β) → α → Option β
  | [], _ => none
  | (k, v) :: rest, key => if k = key then some v else mapGet rest key

/-- JS `Map.set`: replace the value of an existing key in place, else append. -/
def mapSet {α β : Type} [DecidableEq α] : List (α × β) → α → β → List (α × β)
  | [], key, v => [(key, v)]
  | (k, w) :: rest, key, v =>
      if k = key then (k, v) :: rest else (k, w) :: mapSet rest key v

/-- JS `Map.delete`: remove the (unique) entry with the given key. -/
def mapDelete {α β : Type} [DecidableEq α] : List (α × β) → α → List (α × β)
  | [], _ => []
  | (k, w) :: rest, key => if k = key then rest else (k, w) :: mapDelete rest key

/-- Remove an element from a key set (JS `Map.delete` on a map used as a set). -/
def removeKey {α : Type} [DecidableEq α] : List α → α → List α
  | [], _ => []
  | k :: rest, key => if k = key then rest else k :: removeKey rest key

/-- One entry of `tx.meta.preTokenBalances` / `postTokenBalances`.
`uiAmount` is `bal.uiTokenAmount?.uiAmount`, `none` when absent (the code
coalesces it to 0 with `|| 0`). -/
structure TokenBalance where
  owner : String
  mint : String
  uiAmount : Option ℚ
deriving DecidableEq, Repr

/-- The `meta` field of a fetched transaction. `preBalances`/`postBalances`
are lamport balances; they are `Option` because the code guards
`if (tx.meta.preBalances && tx.meta.postBalances)`. -/
structure TxMeta where
  preBalances : Option (List ℤ)
  postBalances : Option (List ℤ)
  preTokenBalances : List TokenBalance
  postTokenBalances : List TokenBalance
deriving DecidableEq, Repr

/-- A fetched transaction; `meta` is `Option` because the code guards
`if (!tx || !tx.meta) return null`. -/
structure Tx where
  meta : Option TxMeta
deriving DecidableEq, Repr

/-- Per-chat settings object (`this.defaultSettings` shape, src/index.js
lines 115-123). The `wallets` map sends address to nickname. -/
structure UserSettings where
  solThreshold : ℚ
  requiredWallets : ℕ
  wallets : List (String × String)
  isPaused : Bool
  lastProcessedSignatures : List (String × String)
  userWallets : List String
  monitoringStartTimes : List (String × ℤ)
deriving DecidableEq, Repr

/-- Fixed lamports-per-SOL conversion (`1e9` in the source). -/
def LAMPORTS_PER_SOL : ℚ := 1000000000

/-- JS `Math.max` on two (non-NaN) numbers. Kept as an explicit comparison
so that concrete runs reduce in the kernel; equal to `max` (see
`jsMax_eq_max`). -/
def jsMax (a b : ℚ) : ℚ := if a < b then b else a

/-- Net SOL spent, src/index.js lines 1134-1139:
`solAmount = Math.max(0, preBalances[0]/1e9 - postBalances[0]/1e9)` when both
balance arrays are present, 0 otherwise. -/
def nativeSolSpent (m : TxMeta) : ℚ :=
  match m.preBalances, m.postBalances with
  | some pre, some post =>
      jsMax 0 (((pre.headD 0 : ℤ) : ℚ) / LAMPORTS_PER_SOL
               - ((post.headD 0 : ℤ) : ℚ) / LAMPORTS_PER_SOL)
  | _, _ => 0

/-- Pre-transaction token-balance map, src/index.js lines 1150-1159:
for each pre-token balance owned by the wallet, `preBalanceMap.set(mint, pre)`. -/
def buildPreBalanceMap (pre : List TokenBalance) (walletAddress : String) :
    List (String × ℚ) :=
  pre.foldl
    (fun m bal =>
      if bal.owner = walletAddress then mapSet m bal.mint (bal.uiAmount.getD 0)
      else m)
    []

/-- One step of the largest-positive-delta scan, src/index.js lines 1166-1178:
accumulator is `(tokenAddress, tokenAmount)`, updated only when
`diff > tokenAmount`. -/
def bestTokenStep (walletAddress : String) (preMap : List (String × ℚ))
    (acc : Option String × ℚ) (bal : TokenBalance) : Option String × ℚ :=
  if bal.owner = walletAddress then
    let preAmount := (mapGet preMap bal.mint).getD 0
    let postAmount := bal.uiAmount.getD 0
    let diff := postAmount - preAmount
    if acc.2 < diff then (some bal.mint, diff) else acc
  else acc

/-- The full scan over `postTokenBalances`, starting from
`tokenAddress = null`, `tokenAmount = 0` (src/index.js lines 1162-1179). -/
def bestToken (post : List TokenBalance) (walletAddress : String)
    (preMap : List (String × ℚ)) : Option String × ℚ :=
  post.foldl (bestTokenStep walletAddress preMap) (none, 0)

/-- The `(mint, delta)` view of the wallet-owned post-state token balances,
in list order, with `delta = postAmount - preAmount(mint)` exactly as the
loop at src/index.js lines 1166-1178 computes it. -/
def ownedDeltas (post : List TokenBalance) (walletAddress : String)
    (preMap : List (String × ℚ)) : List (String × ℚ) :=
  (post.filter (fun bal => decide (bal.owner = walletAddress))).map
    (fun bal =>
      (bal.mint, bal.uiAmount.getD 0 - (mapGet preMap bal.mint).getD 0))

/-- The bare keep-the-strictly-larger fold over `(mint, delta)` pairs;
`bestToken` is this fold over `ownedDeltas` (see
`bestToken_eq_foldBestPairs`). -/
def foldBestPairs (l : List (String × ℚ)) (a : Option String × ℚ) :
    Option String × ℚ :=
  l.foldl (fun acc p => if acc.2 < p.2 then (some p.1, p.2) else acc) a

/-- The classified result of `extractTokenInfoFromTx`. Enrichment
(`getTokenMetadata` etc.) only fills display metadata and never changes
`tokenAddress` / `tokenAmount` / `solAmount`; it is modelled by the
placeholder `tokenName = "Unknown"` the code starts from. -/
structure TokenInfo where
  tokenAddress : String
  tokenName : String
  tokenAmount : ℚ
  solAmount : ℚ
deriving DecidableEq, Repr

/-- `extractTokenInfoFromTx(tx, chatId, walletAddress)`, src/index.js
lines 1124-1222 (pure classification part). Returns `none` when the
transaction or its meta is missing, or when the net SOL spent is below the
subscriber's `solThreshold`; otherwise reports the mint with the largest
strictly positive balance delta, or `"unknown"` with amount 0. -/
def extractTokenInfoFromTx (tx : Option Tx) (settings : UserSettings)
    (walletAddress : String) : Option TokenInfo :=
  match tx with
  | none => none
  | some t =>
    match t.meta with
    | none => none
    | some m =>
      let solAmount := nativeSolSpent m
      if solAmount < settings.solThreshold then none
      else
        let preBalanceMap := buildPreBalanceMap m.preTokenBalances walletAddress
        let best := bestToken m.postTokenBalances walletAddress preBalanceMap
        some { tokenAddress := best.1.getD "unknown"
               tokenName := "Unknown"
               tokenAmount := best.2
               solAmount := solAmount }

/-- Aggregation window stored in `this.recentTransactions`
(src/index.js lines 1055-1062): per-wallet cumulative SOL spent plus the
`timestamp` and `firstSeen` fields, both set to `Date.now()` at creation. -/
structure Window where
  buyers : List (String × ℚ)
  timestamp : ℤ
  firstSeen : ℤ
deriving DecidableEq, Repr

/-- Key of `recentTransactions`: the template string
`chatId:tokenAddress`, modelled as the pair. -/
abbrev AggKey := ℤ × String

/-- The `recentTransactions` map. -/
abbrev AggState := List (AggKey × Window)

/-- Payload handed to `sendAlert` (src/index.js lines 1093-1099). -/
structure Alert where
  chatId : ℤ
  tokenAddress : String
  tokenName : String
  buyers : List (String × ℚ)
  totalSpent : ℚ
deriving DecidableEq, Repr

/-- The 1-hour window TTL in milliseconds (`3600000` at src/index.js 1108). -/
def windowTTL : ℤ := 3600000

/-- Expiry sweep, src/index.js lines 1105-1115: delete every entry with
`now - data.timestamp > 3600000`. -/
def sweepExpired (now : ℤ) (st : AggState) : AggState :=
  st.filter (fun e => decide (now - e.2.timestamp ≤ windowTTL))

/-- Aggregation core of `processTransaction` (src/index.js lines 1032-1120),
with the already-extracted `tokenInfo` passed in, as the monitoring loop
does. Creates the window if absent, accumulates the wallet's spend, fires
the alert and deletes the window when
`buyers.size >= requiredWallets && totalSpent >= solThreshold`, then runs
the expiry sweep. -/
def processTransaction (now : ℤ) (settings : UserSettings) (chatId : ℤ)
    (walletAddress : String) (tokenInfo : TokenInfo) (st : AggState) :
    AggState × Option Alert :=
  let key : AggKey := (chatId, tokenInfo.tokenAddress)
  let st1 := if (mapGet st key).isSome then st
             else mapSet st key { buyers := [], timestamp := now, firstSeen := now }
  match mapGet st1 key with
  | none => (st1, none)
  | some txData =>
    let previousAmount := (mapGet txData.buyers walletAddress).getD 0
    let buyers1 := mapSet txData.buyers walletAddress
                     (previousAmount + tokenInfo.solAmount)
    let st2 := mapSet st1 key { txData with buyers := buyers1 }
    let totalSolSpentOnToken := (buyers1.map Prod.snd).sum
    if settings.requiredWallets ≤ buyers1.length ∧
       settings.solThreshold ≤ totalSolSpentOnToken then
      (sweepExpired now (mapDelete st2 key),
       some { chatId := chatId
              tokenAddress := tokenInfo.tokenAddress
              tokenName := tokenInfo.tokenName
              buyers := buyers1
              totalSpent := totalSolSpentOnToken })
    else
      (sweepExpired now st2, none)

/-- The monitoring loop's per-transaction step, src/index.js lines 993-1006:
classify via `extractTokenInfoFromTx`; only a result with a known mint and a
strictly positive token amount is handed to `processTransaction`. -/
def monitorProcessTx (now : ℤ) (settings : UserSettings) (chatId : ℤ)
    (walletAddress : String) (tx : Option Tx) (st : AggState) :
    AggState × Option Alert :=
  match extractTokenInfoFromTx tx settings walletAddress with
  | some ti =>
      if ti.tokenAddress ≠ "unknown" ∧ 0 < ti.tokenAmount then
        processTransaction now settings chatId walletAddress ti st
      else (st, none)
  | none => (st, none)

/-- One fetched signature entry (`getSignaturesForAddress` result): the
list is ordered newest first; `blockTime` may be absent. -/
structure SigInfo where
  signature : String
  blockTime : Option ℤ
deriving DecidableEq, Repr

/-- The new-signature scan of a poll tick, src/index.js lines 960-964:
walk the fetched list (newest first), collecting entries until one equals
`lastProcessedSig` (which may be absent). -/
def collectNewSignatures (lastProcessedSig : Option String) :
    List SigInfo → List SigInfo
  | [] => []
  | sig :: rest =>
      if some sig.signature = lastProcessedSig then []
      else sig :: collectNewSignatures lastProcessedSig rest

/-- The processing pass of a tick, src/index.js lines 973-1013: iterate the
new signatures in reverse (oldest first), skipping entries whose
`blockTime` is truthy (present and nonzero, per JS `if (sig.blockTime &&`)
and earlier than `monitoringStartTime`. The result is the list of
signatures actually handed to transaction fetching / classification. -/
def emittedSignatures (monitoringStartTime : ℤ)
    (newSignatures : List SigInfo) : List SigInfo :=
  newSignatures.reverse.filter
    (fun sig =>
      match sig.blockTime with
      | none => true
      | some bt => decide (¬ (bt ≠ 0 ∧ bt < monitoringStartTime)))

/-- One poll-interval tick, src/index.js lines 947-1017, as a pure function
of the paused flag, the monitoring start time, the stored cursor, and the
fetched signature list. Returns the new cursor and the signatures emitted
for processing. The cursor is assigned (line 970) before the processing
loop runs. -/
def pollTick (isPaused : Bool) (monitoringStartTime : ℤ)
    (lastProcessedSig : Option String) (newSigs : List SigInfo) :
    Option String × List SigInfo :=
  if isPaused then (lastProcessedSig, [])
  else if newSigs.isEmpty then (lastProcessedSig, [])
  else
    match collectNewSignatures lastProcessedSig newSigs with
    | [] => (lastProcessedSig, [])
    | n0 :: rest =>
        (some n0.signature,
         emittedSignatures monitoringStartTime (n0 :: rest))

/-- `deleteWallet(chatId, address)`, src/index.js lines 790-810: clear and
drop the wallet's monitoring interval, then delete the wallet from
`settings.wallets` and its cursor from `settings.lastProcessedSignatures`.
`monitoringIntervals` is modelled by its key set `(chatId, address)`. -/
def deleteWallet (monitoringIntervals : List (ℤ × String))
    (settings : UserSettings) (chatId : ℤ) (address : String) :
    List (ℤ × String) × UserSettings :=
  (removeKey monitoringIntervals (chatId, address),
   { settings with
       wallets := mapDelete settings.wallets address
       lastProcessedSignatures :=
         mapDelete settings.lastProcessedSignatures address })

/-- `this.rpcStats` (src/index.js lines 106-111); `lastRotation` is dropped
as a pure wall-clock observability field. -/
structure RpcStats where
  rateLimitCount : ℕ
  totalRequests : ℕ
  totalRotations : ℕ
deriving DecidableEq, Repr

/-- RPC endpoint pool state: `this.rpcEndpoints`, `this.currentRpcIndex`,
`this.rpcStats`. -/
structure RpcState where
  rpcEndpoints : List String
  currentRpcIndex : ℕ
  rpcStats : RpcStats
deriving DecidableEq, Repr

/-- `rotateRpcEndpoint()`, src/index.js lines 688-715: advance the index
modulo the pool length, reset `rateLimitCount` to 0, bump `totalRotations`.
(The `new Connection` construction is modelled as always succeeding.) -/
def rotateRpcEndpoint (s : RpcState) : RpcState :=
  { s with
      currentRpcIndex := (s.currentRpcIndex + 1) % s.rpcEndpoints.length
      rpcStats := { s.rpcStats with
                      rateLimitCount := 0
                      totalRotations := s.rpcStats.totalRotations + 1 } }

/-- Outcome of one invocation of the wrapped `apiFunction`. -/
inductive ApiOutcome where
  | ok
  | rateLimited
  | otherError
deriving DecidableEq, Repr

/-- How a `callWithBackoff` run ended. `noOutcome` is a modelling artifact
for an exhausted outcome script and is unreachable in the claims. -/
inductive CallResult where
  | success
  | raised (o : ApiOutcome)
  | exhausted
  | noOutcome
deriving DecidableEq, Repr

/-- Loop body of `callWithBackoff`, src/index.js lines 717-745, driven by a
script of per-attempt outcomes: `while (retries <= maxRetries)` do
`totalRequests++`; on success return; on a rate-limit error with
`retries < maxRetries`, `rateLimitCount++`, back off, `retries++`, and
rotate the endpoint once `rateLimitCount >= 3`; otherwise rethrow. -/
def callWithBackoffAux : List ApiOutcome → ℕ → ℕ → RpcState →
    RpcState × CallResult
  | outcomes, retries, maxRetries, s =>
    if maxRetries < retries then (s, .exhausted)
    else
      match outcomes with
      | [] => (s, .noOutcome)
      | o :: rest =>
        let s1 := { s with rpcStats :=
          { s.rpcStats with totalRequests := s.rpcStats.totalRequests + 1 } }
        match o with
        | .ok => (s1, .success)
        | .rateLimited =>
            if retries < maxRetries then
              let s2 := { s1 with rpcStats :=
                { s1.rpcStats with
                    rateLimitCount := s1.rpcStats.rateLimitCount + 1 } }
              let s3 := if 3 ≤ s2.rpcStats.rateLimitCount
                        then rotateRpcEndpoint s2 else s2
              callWithBackoffAux rest (retries + 1) maxRetries s3
            else (s1, .raised .rateLimited)
        | .otherError => (s1, .raised .otherError)

/-- `callWithBackoff(apiFunction, maxRetries = 3)`: start with `retries = 0`. -/
def callWithBackoff (outcomes : List ApiOutcome) (maxRetries : ℕ)
    (s : RpcState) : RpcState × CallResult :=
  callWithBackoffAux outcomes 0 maxRetries s

/-- A heap cell for one of the mutable structures reachable from a settings
object: a string-to-string `Map` (wallets, lastProcessedSignatures), the
`monitoringStartTimes` plain object, or the `userWallets` array. -/
inductive Cell where
  | strMap (entries : List (String × String))
  | timeObj (entries : List (String × ℤ))
  | strArr (items : List String)
deriving DecidableEq, Repr

/-- The settings object as stored per chat id: scalar fields by value,
`Map`/object/array fields as heap references, mirroring JS reference
semantics under the spread `{...this.defaultSettings, wallets: new Map()}`. -/
structure SettingsObj where
  solThreshold : ℚ
  requiredWallets : ℕ
  walletsRef : ℕ
  isPaused : Bool
  lastProcessedSignaturesRef : ℕ
  userWalletsRef : ℕ
  monitoringStartTimesRef : ℕ
deriving DecidableEq, Repr

/-- The tracker's settings store: a heap of cells, the `defaultSettings`
object, and the `userSettings` map from chat id to settings object. -/
structure TrackerStore where
  heap : List (ℕ × Cell)
  nextRef : ℕ
  defaultSettings : SettingsObj
  userSettings : List (ℤ × SettingsObj)
deriving DecidableEq, Repr

/-- Constructor state, src/index.js lines 98 and 115-123: empty
`userSettings`; `defaultSettings` holds one allocation each of
`wallets : Map`, `lastProcessedSignatures : Map`, `userWallets : []`,
`monitoringStartTimes : {}`. -/
def initTracker : TrackerStore :=
  { heap := [(0, .strMap []), (1, .strMap []), (2, .strArr []), (3, .timeObj [])]
    nextRef := 4
    defaultSettings :=
      { solThreshold := 1/2
        requiredWallets := 3
        walletsRef := 0
        isPaused := false
        lastProcessedSignaturesRef := 1
        userWalletsRef := 2
        monitoringStartTimesRef := 3 }
    userSettings := [] }

/-- `getUserSettings(chatId)`, src/index.js lines 1787-1795: on first
access, store `{...this.defaultSettings, wallets: new Map()}` — a shallow
copy, so every reference-valued field except `wallets` still points at the
cell inside `defaultSettings`; `wallets` gets a fresh empty `Map`. -/
def getUserSettings (t : TrackerStore) (chatId : ℤ) :
    TrackerStore × SettingsObj :=
  match mapGet t.userSettings chatId with
  | some s => (t, s)
  | none =>
      let fresh := t.nextRef
      let s := { t.defaultSettings with walletsRef := fresh }
      ({ t with
           heap := mapSet t.heap fresh (.strMap [])
           nextRef := fresh + 1
           userSettings := mapSet t.userSettings chatId s },
       s)

/-- `settings.lastProcessedSignatures.set(address, sig)` performed through a
given settings object: mutates the heap cell its reference points at. -/
def setCursorVia (t : TrackerStore) (s : SettingsObj) (address sig : String) :
    TrackerStore :=
  match mapGet t.heap s.lastProcessedSignaturesRef with
  | some (.strMap m) =>
      { t with heap := mapSet t.heap s.lastProcessedSignaturesRef
                 (.strMap (mapSet m address sig)) }
  | _ => t

/-- `settings.lastProcessedSignatures.get(address)` read through a given
settings object. -/
def getCursorVia (t : TrackerStore) (s : SettingsObj) (address : String) :
    Option String :=
  match mapGet t.heap s.lastProcessedSignaturesRef with
  | some (.strMap m) => mapGet m address
  | _ => none

/-- The methods defined on class WalletTracker in src/index.js, in source
order. Transcribed to witness that no `handleTransaction` method exists,
although `setupWebhook` (line 346) invokes `this.handleTransaction`. -/
def walletTrackerMethods : List String :=
  ["constructor", "initialize", "rotateRpcProvider", "setupErrorHandling",
   "setupCommands", "setupMessageHandler", "setupWebhook", "handleStart",
   "callCallStaticAPI", "getTokenMetadata", "getTokenMarketData",
   "getTokenVolumeData", "handleAddWallets", "processWalletAddition",
   "callSolscanAPI", "checkWalletStatus", "pauseMonitoring", "showMenu",
   "rotateRpcEndpoint", "callWithBackoff", "resumeMonitoring",
   "handleDeleteWallets", "deleteWallet", "showWallets", "showSettings",
   "setThreshold", "setWalletCount", "startMonitoringWallet",
   "processTransaction", "extractTokenInfoFromTx", "extractTokenInfo",
   "getTokenDetails", "handleCreateWallet", "handleCheckBalance",
   "checkWalletBalance", "showUserWallets", "handleDeposit",
   "showDepositInfo", "sendAlert", "getUserSettings"]

/-- The `POST /webhook` handler, src/index.js lines 343-352: it awaits
`this.handleTransaction(signature, accountKeys)` and answers 200, with a
catch-all answering 500. Method dispatch is modelled by lookup in the
class's method list: an undefined method raises a `TypeError`, which the
catch turns into status 500. -/
def webhookPostStatus (signature : String) (accountKeys : List String) : ℕ :=
  if walletTrackerMethods.contains "handleTransaction" then 200 else 500


/- ------------------------------------------------------------------ -/
/- Helper lemmas about the Map model.                                  -/
/- ------------------------------------------------------------------ -/

theorem jsMax_eq_max (a b : ℚ) : jsMax a b = max a b := by
  unfold jsMax
  rcases lt_or_le a b with h | h
  · rw [if_pos h, max_eq_right h.le]
  · rw [if_neg (not_lt.mpr h), max_eq_left h]

theorem mapGet_nil {α β : Type} [DecidableEq α] (k : α) :
    mapGet ([] : List (α × β)) k = none := rfl

theorem mapGet_cons_eq {α β : Type} [DecidableEq α]
    (rest : List (α × β)) (k : α) (v : β) :
    mapGet ((k, v) :: rest) k = some v := by simp [mapGet]

theorem mapGet_cons_ne {α β : Type} [DecidableEq α]
    (rest : List (α × β)) (k1 k : α) (v : β) (h : k1 ≠ k) :
    mapGet ((k1, v) :: rest) k = mapGet rest k := by simp [mapGet, h]

theorem mapSet_nil {α β : Type} [DecidableEq α] (k : α) (v : β) :
    mapSet ([] : List (α × β)) k v = [(k, v)] := rfl

theorem mapSet_cons_eq {α β : Type} [DecidableEq α]
    (rest : List (α × β)) (k : α) (w v : β) :
    mapSet ((k, w) :: rest) k v = (k, v) :: rest := by simp [mapSet]

theorem mapSet_cons_ne {α β : Type} [DecidableEq α]
    (rest : List (α × β)) (k1 k : α) (w v : β) (h : k1 ≠ k) :
    mapSet ((k1, w) :: rest) k v = (k1, w) :: mapSet rest k v := by
  simp [mapSet, h]

theorem mapDelete_nil {α β : Type} [DecidableEq α] (k : α) :
    mapDelete ([] : List (α × β)) k = [] := rfl

theorem mapDelete_cons_eq {α β : Type} [DecidableEq α]
    (rest : List (α × β)) (k : α) (w : β) :
    mapDelete ((k, w) :: rest) k = rest := by simp [mapDelete]

theorem mapDelete_cons_ne {α β : Type} [DecidableEq α]
    (rest : List (α × β)) (k1 k : α) (w : β) (h : k1 ≠ k) :
    mapDelete ((k1, w) :: rest) k = (k1, w) :: mapDelete rest k := by
  simp [mapDelete, h]

theorem mapGet_mapSet_self {α β : Type} [DecidableEq α]
    (m : List (α × β)) (k : α) (v : β) :
    mapGet (mapSet m k v) k = some v := by
  induction m with
  | nil => rw [mapSet_nil, mapGet_cons_eq]
  | cons e rest ih =>
      rcases e with ⟨k1, v1⟩
      by_cases h : k1 = k
      · subst h
        rw [mapSet_cons_eq, mapGet_cons_eq]
      · rw [mapSet_cons_ne _ _ _ _ _ h, mapGet_cons_ne _ _ _ _ h, ih]

theorem mapGet_mapSet_ne {α β : Type} [DecidableEq α]
    (m : List (α × β)) (k k' : α) (v : β) (h : k ≠ k') :
    mapGet (mapSet m k v) k' = mapGet m k' := by
  induction m with
  | nil => rw [mapSet_nil, mapGet_cons_ne _ _ _ _ h, mapGet_nil]
  | cons e rest ih =>
      rcases e with ⟨k1, v1⟩
      by_cases h1 : k1 = k
      · subst h1
        rw [mapSet_cons_eq, mapGet_cons_ne _ _ _ _ h, mapGet_cons_ne _ _ _ _ h]
      · rw [mapSet_cons_ne _ _ _ _ _ h1]
        by_cases h2 : k1 = k'
        · subst h2
          rw [mapGet_cons_eq, mapGet_cons_eq]
        · rw [mapGet_cons_ne _ _ _ _ h2, mapGet_cons_ne _ _ _ _ h2, ih]

theorem mapGet_mapDelete_ne {α β : Type} [DecidableEq α]
    (m : List (α × β)) (k k' : α) (h : k ≠ k') :
    mapGet (mapDelete m k) k' = mapGet m k' := by
  induction m with
  | nil => rw [mapDelete_nil]
  | cons e rest ih =>
      rcases e with ⟨k1, v1⟩
      by_cases h1 : k1 = k
      · subst h1
        rw [mapDelete_cons_eq, mapGet_cons_ne _ _ _ _ h]
      · rw [mapDelete_cons_ne _ _ _ _ h1]
        by_cases h2 : k1 = k'
        · subst h2
          rw [mapGet_cons_eq, mapGet_cons_eq]
        · rw [mapGet_cons_ne _ _ _ _ h2, mapGet_cons_ne _ _ _ _ h2, ih]

theorem mapGet_eq_none_iff {α β : Type} [DecidableEq α]
    (m : List (α × β)) (k : α) :
    mapGet m k = none ↔ k ∉ m.map Prod.fst := by
  induction m with
  | nil => simp [mapGet]
  | cons e rest ih =>
      rcases e with ⟨k1, v1⟩
      by_cases h : k1 = k
      · subst h
        rw [mapGet_cons_eq]
        simp
      · rw [mapGet_cons_ne _ _ _ _ h]
        simp only [List.map_cons, List.mem_cons, ih]
        constructor
        · rintro hk (h2 | h2)
          · exact h h2.symm
          · exact hk h2
        · intro hk h2
          exact hk (Or.inr h2)

theorem mapGet_mem {α β : Type} [DecidableEq α]
    (m : List (α × β)) (k : α) (v : β) (h : mapGet m k = some v) :
    (k, v) ∈ m := by
  induction m with
  | nil => simp [mapGet] at h
  | cons e rest ih =>
      rcases e with ⟨k1, v1⟩
      by_cases h1 : k1 = k
      · subst h1
        rw [mapGet_cons_eq] at h
        simp only [Option.some.injEq] at h
        subst h
        exact List.mem_cons_self _ _
      · rw [mapGet_cons_ne _ _ _ _ h1] at h
        exact List.mem_cons_of_mem _ (ih h)

theorem mapGet_mapDelete_self {α β : Type} [DecidableEq α]
    (m : List (α × β)) (k : α) (hnd : (m.map Prod.fst).Nodup) :
    mapGet (mapDelete m k) k = none := by
  induction m with
  | nil => rw [mapDelete_nil, mapGet_nil]
  | cons e rest ih =>
      rcases e with ⟨k1, v1⟩
      rcases List.nodup_cons.mp hnd with ⟨hk1, hrest⟩
      by_cases h1 : k1 = k
      · subst h1
        rw [mapDelete_cons_eq]
        exact (mapGet_eq_none_iff rest k1).mpr hk1
      · rw [mapDelete_cons_ne _ _ _ _ h1, mapGet_cons_ne _ _ _ _ h1, ih hrest]

theorem mem_keys_mapSet {α β : Type} [DecidableEq α]
    (m : List (α × β)) (k : α) (v : β) (x : α) :
    x ∈ (mapSet m k v).map Prod.fst ↔ x ∈ m.map Prod.fst ∨ x = k := by
  induction m with
  | nil => simp [mapSet]
  | cons e rest ih =>
      rcases e with ⟨k1, v1⟩
      by_cases h : k1 = k
      · subst h
        rw [mapSet_cons_eq]
        simp only [List.map_cons, List.mem_cons]
        tauto
      · rw [mapSet_cons_ne _ _ _ _ _ h]
        simp only [List.map_cons, List.mem_cons, ih]
        tauto

theorem nodup_keys_mapSet {α β : Type} [DecidableEq α]
    (m : List (α × β)) (k : α) (v : β) (hnd : (m.map Prod.fst).Nodup) :
    ((mapSet m k v).map Prod.fst).Nodup := by
  induction m with
  | nil => simp [mapSet]
  | cons e rest ih =>
      rcases e with ⟨k1, v1⟩
      rcases List.nodup_cons.mp hnd with ⟨hk1, hrest⟩
      by_cases h : k1 = k
      · subst h
        rw [mapSet_cons_eq]
        simp only [List.map_cons, List.nodup_cons]
        exact ⟨hk1, hrest⟩
      · rw [mapSet_cons_ne _ _ _ _ _ h]
        simp only [List.map_cons, List.nodup_cons]
        refine ⟨fun hmem => ?_, ih hrest⟩
        rcases (mem_keys_mapSet rest k v k1).mp hmem with h2 | h2
        · exact hk1 h2
        · exact h h2

theorem mapDelete_sublist {α β : Type} [DecidableEq α]
    (m : List (α × β)) (k : α) : (mapDelete m k).Sublist m := by
  induction m with
  | nil => simp [mapDelete]
  | cons e rest ih =>
      rcases e with ⟨k1, v1⟩
      by_cases h : k1 = k
      · rw [h, mapDelete_cons_eq]
        exact List.sublist_cons_self _ _
      · rw [mapDelete_cons_ne _ _ _ _ h]
        exact ih.cons₂ _

theorem nodup_keys_sublist {α β : Type}
    (m1 m2 : List (α × β)) (hs : m1.Sublist m2)
    (hnd : (m2.map Prod.fst).Nodup) : (m1.map Prod.fst).Nodup :=
  List.Nodup.sublist (hs.map Prod.fst) hnd

theorem mapDelete_mapSet_fresh {α β : Type} [DecidableEq α]
    (m : List (α × β)) (k : α) (v : β) (h : mapGet m k = none) :
    mapDelete (mapSet m k v) k = m := by
  induction m with
  | nil => rw [mapSet_nil, mapDelete_cons_eq]
  | cons e rest ih =>
      rcases e with ⟨k1, v1⟩
      by_cases h1 : k1 = k
      · subst h1
        rw [mapGet_cons_eq] at h
        exact absurd h (by simp)
      · rw [mapGet_cons_ne _ _ _ _ h1] at h
        rw [mapSet_cons_ne _ _ _ _ _ h1, mapDelete_cons_ne _ _ _ _ h1, ih h]

theorem mapSet_mapSet {α β : Type} [DecidableEq α]
    (m : List (α × β)) (k : α) (v1 v2 : β) :
    mapSet (mapSet m k v1) k v2 = mapSet m k v2 := by
  induction m with
  | nil => rw [mapSet_nil, mapSet_cons_eq, mapSet_nil]
  | cons e rest ih =>
      rcases e with ⟨k1, w⟩
      by_cases h : k1 = k
      · subst h
        rw [mapSet_cons_eq, mapSet_cons_eq, mapSet_cons_eq]
      · rw [mapSet_cons_ne _ _ _ _ _ h, mapSet_cons_ne _ _ _ _ _ h,
          mapSet_cons_ne _ _ _ _ _ h, ih]

/- Lemmas about the expiry sweep. -/

theorem sweepExpired_sublist (now : ℤ) (st : AggState) :
    (sweepExpired now st).Sublist st :=
  List.filter_sublist st

theorem mapGet_sweepExpired_none (now : ℤ) (st : AggState) (k : AggKey)
    (h : mapGet st k = none) : mapGet (sweepExpired now st) k = none := by
  rw [mapGet_eq_none_iff] at h ⊢
  intro hmem
  exact h (((sweepExpired_sublist now st).map Prod.fst).mem hmem)

theorem sweepExpired_cons_keep (now : ℤ) (rest : AggState) (k : AggKey)
    (w : Window) (hp : now - w.timestamp ≤ windowTTL) :
    sweepExpired now ((k, w) :: rest) = (k, w) :: sweepExpired now rest := by
  simp [sweepExpired, List.filter, hp]

theorem sweepExpired_cons_drop (now : ℤ) (rest : AggState) (k : AggKey)
    (w : Window) (hp : ¬ now - w.timestamp ≤ windowTTL) :
    sweepExpired now ((k, w) :: rest) = sweepExpired now rest := by
  simp [sweepExpired, List.filter, hp]

theorem mapGet_sweepExpired_some (now : ℤ) (st : AggState) (k : AggKey)
    (w : Window) (hnd : (st.map Prod.fst).Nodup) (h : mapGet st k = some w) :
    mapGet (sweepExpired now st) k =
      if now - w.timestamp ≤ windowTTL then some w else none := by
  induction st with
  | nil => simp [mapGet] at h
  | cons e rest ih =>
      rcases e with ⟨k1, w1⟩
      rcases List.nodup_cons.mp hnd with ⟨hk1, hrest⟩
      by_cases h1 : k1 = k
      · subst h1
        rw [mapGet_cons_eq] at h
        simp only [Option.some.injEq] at h
        subst h
        by_cases hp : now - w1.timestamp ≤ windowTTL
        · rw [sweepExpired_cons_keep _ _ _ _ hp, mapGet_cons_eq, if_pos hp]
        · rw [sweepExpired_cons_drop _ _ _ _ hp, if_neg hp]
          exact mapGet_sweepExpired_none _ _ _
            ((mapGet_eq_none_iff rest k1).mpr hk1)
      · rw [mapGet_cons_ne _ _ _ _ h1] at h
        by_cases hp : now - w1.timestamp ≤ windowTTL
        · rw [sweepExpired_cons_keep _ _ _ _ hp, mapGet_cons_ne _ _ _ _ h1,
            ih hrest h]
        · rw [sweepExpired_cons_drop _ _ _ _ hp, ih hrest h]

theorem mapGet_sweepExpired_ttl (now : ℤ) (st : AggState) (k : AggKey)
    (w : Window) (h : mapGet (sweepExpired now st) k = some w) :
    now - w.timestamp ≤ windowTTL := by
  have hmem := mapGet_mem _ _ _ h
  have hf := List.of_mem_filter hmem
  simpa using hf

/- Characterizations of one aggregation step. -/

theorem processTransaction_fresh (now : ℤ) (settings : UserSettings) (c : ℤ)
    (w : String) (ti : TokenInfo) (st : AggState)
    (h : mapGet st (c, ti.tokenAddress) = none) :
    processTransaction now settings c w ti st =
      if settings.requiredWallets ≤ 1 ∧ settings.solThreshold ≤ ti.solAmount then
        (sweepExpired now st,
         some ⟨c, ti.tokenAddress, ti.tokenName, [(w, ti.solAmount)],
               ti.solAmount⟩)
      else
        (sweepExpired now
           (mapSet st (c, ti.tokenAddress) ⟨[(w, ti.solAmount)], now, now⟩),
         none) := by
  simp only [processTransaction, h, Option.isSome_none, Bool.false_eq_true,
    if_false, mapGet_mapSet_self, mapGet_nil, Option.getD_none, zero_add,
    mapSet_nil, mapSet_mapSet, List.map_cons, List.map_nil, List.sum_cons,
    List.sum_nil, add_zero, List.length_cons, List.length_nil, zero_add,
    mapDelete_mapSet_fresh _ _ _ h]

theorem processTransaction_existing (now : ℤ) (settings : UserSettings)
    (c : ℤ) (w : String) (ti : TokenInfo) (st : AggState) (win : Window)
    (h : mapGet st (c, ti.tokenAddress) = some win) :
    processTransaction now settings c w ti st =
      (let buyers1 := mapSet win.buyers w
         ((mapGet win.buyers w).getD 0 + ti.solAmount)
       let total := (buyers1.map Prod.snd).sum
       if settings.requiredWallets ≤ buyers1.length ∧
          settings.solThreshold ≤ total then
         (sweepExpired now
            (mapDelete
              (mapSet st (c, ti.tokenAddress)
                ⟨buyers1, win.timestamp, win.firstSeen⟩)
              (c, ti.tokenAddress)),
          some ⟨c, ti.tokenAddress, ti.tokenName, buyers1, total⟩)
       else
         (sweepExpired now
            (mapSet st (c, ti.tokenAddress)
              ⟨buyers1, win.timestamp, win.firstSeen⟩),
          none)) := by
  simp only [processTransaction, h, Option.isSome_some, if_true]

theorem not_mem_removeKey {α : Type} [DecidableEq α] (l : List α) (x : α)
    (h : l.Nodup) : x ∉ removeKey l x := by
  induction l with
  | nil => simp [removeKey]
  | cons a rest ih =>
      rcases List.nodup_cons.mp h with ⟨ha, hrest⟩
      by_cases hx : a = x
      · subst hx
        simpa [removeKey] using ha
      · simp only [removeKey, if_neg hx]
        intro hmem
        rcases List.mem_cons.mp hmem with h2 | h2
        · exact hx h2.symm
        · exact ih hrest h2

/- ------------------------------------------------------------------ -/
/- Claim theorems.                                                     -/
/- ------------------------------------------------------------------ -/

/-- C5: the classifier computes `spent = max(0, preBalance - postBalance)`
for balance index 0 converted to SOL, and returns `null` whenever
`spent < subscriber.solThreshold`, regardless of the token balances. -/
theorem c5_below_threshold_rejected (m : TxMeta) (settings : UserSettings)
    (walletAddress : String) :
    (nativeSolSpent m < settings.solThreshold →
       extractTokenInfoFromTx (some ⟨some m⟩) settings walletAddress = none)
    ∧ (∀ pre post, m.preBalances = some pre → m.postBalances = some post →
         nativeSolSpent m =
           max 0 ((((pre.headD 0 : ℤ) : ℚ) - ((post.headD 0 : ℤ) : ℚ))
                    / LAMPORTS_PER_SOL)) := by
  constructor
  · intro h
    simp only [extractTokenInfoFromTx]
    rw [if_pos h]
  · intro pre post hpre hpost
    simp only [nativeSolSpent, hpre, hpost, jsMax_eq_max]
    rw [div_sub_div_same]

/-- Witness for C5: a transaction whose native balance drops by 0.2 SOL,
with a token balance gained, yields no signal under a 0.5 SOL threshold. -/
theorem c5_below_threshold_rejected_witness :
    nativeSolSpent ⟨some [1000000000], some [800000000], [],
        [⟨"W", "M", some 7⟩]⟩ < (1 : ℚ)/2
    ∧ extractTokenInfoFromTx
        (some ⟨some ⟨some [1000000000], some [800000000], [],
          [⟨"W", "M", some 7⟩]⟩⟩)
        ⟨1/2, 3, [], false, [], [], []⟩ "W" = none := by
  have h : nativeSolSpent ⟨some [1000000000], some [800000000], [],
      [⟨"W", "M", some 7⟩]⟩ <
      (⟨1/2, 3, [], false, [], [], []⟩ : UserSettings).solThreshold := by
    norm_num [nativeSolSpent, jsMax, LAMPORTS_PER_SOL]
  exact ⟨h, (c5_below_threshold_rejected _ _ "W").1 h⟩

/-- C10: the `POST /webhook` handler invokes `this.handleTransaction`,
which is not among the methods defined on the class, so the resulting
`TypeError` is caught and every webhook request is answered 500 — the
classifier pipeline is never reached. -/
theorem c10_webhook_always_500 (signature : String)
    (accountKeys : List String) :
    webhookPostStatus signature accountKeys = 500
    ∧ "handleTransaction" ∉ walletTrackerMethods := by
  refine ⟨rfl, ?_⟩
  decide

/-- C4: `getUserSettings` copies `defaultSettings` shallowly, so two
distinct chat ids (1 and 2) receive settings objects whose
`lastProcessedSignatures`, `monitoringStartTimes` and `userWallets`
references are identical (a cursor write through one is read through the
other), while only the `wallets` map reference is fresh per subscriber. -/
theorem c4_settings_reference_sharing :
    (getUserSettings (getUserSettings initTracker 1).1 2).2.lastProcessedSignaturesRef
      = (getUserSettings initTracker 1).2.lastProcessedSignaturesRef
    ∧ (getUserSettings (getUserSettings initTracker 1).1 2).2.monitoringStartTimesRef
      = (getUserSettings initTracker 1).2.monitoringStartTimesRef
    ∧ (getUserSettings (getUserSettings initTracker 1).1 2).2.userWalletsRef
      = (getUserSettings initTracker 1).2.userWalletsRef
    ∧ (getUserSettings (getUserSettings initTracker 1).1 2).2.walletsRef
      ≠ (getUserSettings initTracker 1).2.walletsRef
    ∧ getCursorVia
        (setCursorVia (getUserSettings (getUserSettings initTracker 1).1 2).1
          (getUserSettings initTracker 1).2 "W" "sig123")
        (getUserSettings (getUserSettings initTracker 1).1 2).2 "W"
      = some "sig123" := by
  norm_num [initTracker, getUserSettings, setCursorVia, getCursorVia,
    mapGet, mapSet]

/-- C9 counterexample: deleting tracked wallet "W" leaves its
`monitoringStartTimes` entry in place (the claim asserts it is removed). -/
theorem c9_counterexample :
    mapGet ((deleteWallet [(1, "W")]
        ⟨1/2, 3, [("W", "nick")], false, [("W", "sig")], [], [("W", 42)]⟩
        1 "W").2).monitoringStartTimes "W" = some 42 := by
  norm_num [deleteWallet, mapGet]

/-- C9 (amended): deleting a tracked wallet cancels its polling task and
removes its wallet entry and its `lastProcessedSignature` cursor entry,
but leaves the `monitoringStartTimes` record untouched. -/
theorem c9_delete_wallet_state (intervals : List (ℤ × String))
    (settings : UserSettings) (chatId : ℤ) (address : String)
    (hInt : intervals.Nodup)
    (hCur : (settings.lastProcessedSignatures.map Prod.fst).Nodup)
    (hWal : (settings.wallets.map Prod.fst).Nodup) :
    (chatId, address) ∉ (deleteWallet intervals settings chatId address).1
    ∧ mapGet (deleteWallet intervals settings chatId
        address).2.lastProcessedSignatures address = none
    ∧ mapGet (deleteWallet intervals settings chatId address).2.wallets
        address = none
    ∧ (deleteWallet intervals settings chatId address).2.monitoringStartTimes
        = settings.monitoringStartTimes := by
  refine ⟨not_mem_removeKey _ _ hInt, ?_, ?_, rfl⟩
  · exact mapGet_mapDelete_self _ _ hCur
  · exact mapGet_mapDelete_self _ _ hWal

/-- Witness for C9 (amended), at a concrete one-wallet state. -/
theorem c9_delete_wallet_state_witness :
    mapGet ((deleteWallet [(1, "W")]
        ⟨1/2, 3, [("W", "nick")], false, [("W", "sig")], [], [("W", 42)]⟩
        1 "W").2).lastProcessedSignatures "W" = none :=
  (c9_delete_wallet_state [(1, "W")]
    ⟨1/2, 3, [("W", "nick")], false, [("W", "sig")], [], [("W", 42)]⟩
    1 "W" (by decide) (by decide) (by decide)).2.1

/-- C7: three consecutive rate-limit failures inside `callWithBackoff`
cause exactly one rotation — the run continues from a state whose
`totalRotations` rose by exactly 1, whose strike counter is reset to 0 and
whose active index advanced by one modulo the pool length; and `rotate`
itself performs exactly that update. -/
theorem c7_rotation_after_three_strikes (s : RpcState)
    (rest : List ApiOutcome) (h : s.rpcStats.rateLimitCount = 0) :
    callWithBackoff (.rateLimited :: .rateLimited :: .rateLimited :: rest)
        3 s
      = callWithBackoffAux rest 3 3
          { rpcEndpoints := s.rpcEndpoints
            currentRpcIndex := (s.currentRpcIndex + 1) % s.rpcEndpoints.length
            rpcStats := { rateLimitCount := 0
                          totalRequests := s.rpcStats.totalRequests + 3
                          totalRotations := s.rpcStats.totalRotations + 1 } }
    ∧ ∀ t : RpcState, rotateRpcEndpoint t =
        { rpcEndpoints := t.rpcEndpoints
          currentRpcIndex := (t.currentRpcIndex + 1) % t.rpcEndpoints.length
          rpcStats := { rateLimitCount := 0
                        totalRequests := t.rpcStats.totalRequests
                        totalRotations := t.rpcStats.totalRotations + 1 } } := by
  constructor
  · simp only [callWithBackoff, callWithBackoffAux, rotateRpcEndpoint, h]
    norm_num
  · intro t
    rfl

/-- Witness for C7: a two-endpoint pool, three rate limits then success. -/
theorem c7_rotation_after_three_strikes_witness :
    callWithBackoff [.rateLimited, .rateLimited, .rateLimited, .ok] 3
        ⟨["e1", "e2"], 0, ⟨0, 0, 0⟩⟩
      = (⟨["e1", "e2"], 1, ⟨0, 4, 1⟩⟩, .success) := by
  have h := (c7_rotation_after_three_strikes ⟨["e1", "e2"], 0, ⟨0, 0, 0⟩⟩
    [.ok] rfl).1
  rw [h]
  norm_num [callWithBackoffAux]

/- Lemmas for the largest-positive-delta scan (C6). -/

theorem ownedDeltas_cons_owned (bal : TokenBalance) (rest : List TokenBalance)
    (walletAddress : String) (preMap : List (String × ℚ))
    (h : bal.owner = walletAddress) :
    ownedDeltas (bal :: rest) walletAddress preMap =
      (bal.mint, bal.uiAmount.getD 0 - (mapGet preMap bal.mint).getD 0)
        :: ownedDeltas rest walletAddress preMap := by
  simp [ownedDeltas, List.filter, h]

theorem ownedDeltas_cons_skip (bal : TokenBalance) (rest : List TokenBalance)
    (walletAddress : String) (preMap : List (String × ℚ))
    (h : ¬ bal.owner = walletAddress) :
    ownedDeltas (bal :: rest) walletAddress preMap =
      ownedDeltas rest walletAddress preMap := by
  simp [ownedDeltas, List.filter, h]

theorem foldBestPairs_cons (p : String × ℚ) (l : List (String × ℚ))
    (a : Option String × ℚ) :
    foldBestPairs (p :: l) a =
      foldBestPairs l (if a.2 < p.2 then (some p.1, p.2) else a) := rfl

theorem bestToken_fold_eq (post : List TokenBalance) (walletAddress : String)
    (preMap : List (String × ℚ)) (a : Option String × ℚ) :
    post.foldl (bestTokenStep walletAddress preMap) a =
      foldBestPairs (ownedDeltas post walletAddress preMap) a := by
  induction post generalizing a with
  | nil => rfl
  | cons bal rest ih =>
      by_cases h : bal.owner = walletAddress
      · rw [List.foldl_cons, ownedDeltas_cons_owned _ _ _ _ h,
          foldBestPairs_cons, ← ih]
        simp only [bestTokenStep, if_pos h]
      · rw [List.foldl_cons, ownedDeltas_cons_skip _ _ _ _ h, ← ih]
        simp only [bestTokenStep, if_neg h]

theorem bestToken_eq_foldBestPairs (post : List TokenBalance)
    (walletAddress : String) (preMap : List (String × ℚ)) :
    bestToken post walletAddress preMap =
      foldBestPairs (ownedDeltas post walletAddress preMap) (none, 0) :=
  bestToken_fold_eq post walletAddress preMap (none, 0)

theorem foldBestPairs_keep (l : List (String × ℚ)) (a : Option String × ℚ)
    (h : ∀ p ∈ l, p.2 ≤ a.2) : foldBestPairs l a = a := by
  induction l with
  | nil => rfl
  | cons p rest ih =>
      rw [foldBestPairs_cons,
        if_neg (not_lt.mpr (h p (List.mem_cons_self _ _)))]
      exact ih fun q hq => h q (List.mem_cons_of_mem _ hq)

theorem foldBestPairs_lt (l : List (String × ℚ)) (d : ℚ) :
    ∀ a : Option String × ℚ, a.2 < d → (∀ p ∈ l, p.2 < d) →
      (foldBestPairs l a).2 < d := by
  induction l with
  | nil => intro a ha _; simpa [foldBestPairs] using ha
  | cons p rest ih =>
      intro a ha h
      rw [foldBestPairs_cons]
      by_cases hp : a.2 < p.2
      · rw [if_pos hp]
        exact ih _ (h p (List.mem_cons_self _ _))
          fun q hq => h q (List.mem_cons_of_mem _ hq)
      · rw [if_neg hp]
        exact ih _ ha fun q hq => h q (List.mem_cons_of_mem _ hq)

theorem foldBestPairs_first_max (l1 l2 : List (String × ℚ)) (mt : String)
    (d : ℚ) (a : Option String × ℚ) (ha : a.2 < d)
    (h1 : ∀ p ∈ l1, p.2 < d) (h2 : ∀ p ∈ l2, p.2 ≤ d) :
    foldBestPairs (l1 ++ (mt, d) :: l2) a = (some mt, d) := by
  have happ : foldBestPairs (l1 ++ (mt, d) :: l2) a =
      foldBestPairs ((mt, d) :: l2) (foldBestPairs l1 a) := by
    simp [foldBestPairs, List.foldl_append]
  rw [happ, foldBestPairs_cons, if_pos (foldBestPairs_lt l1 d a ha h1)]
  exact foldBestPairs_keep l2 (some mt, d) (by simpa using h2)

/-- C6: among the wallet-owned post-state balances, the classifier picks
the mint with the largest strictly positive delta, the first-listed mint
winning ties; and when no delta is positive, `extractTokenInfoFromTx`
reports asset "unknown" with zero amount. -/
theorem c6_largest_positive_delta (post : List TokenBalance)
    (walletAddress : String) (preMap : List (String × ℚ)) :
    (∀ (mt : String) (d : ℚ) (l1 l2 : List (String × ℚ)),
        ownedDeltas post walletAddress preMap = l1 ++ (mt, d) :: l2 →
        0 < d → (∀ p ∈ l1, p.2 < d) → (∀ p ∈ l2, p.2 ≤ d) →
        bestToken post walletAddress preMap = (some mt, d))
    ∧ ((∀ p ∈ ownedDeltas post walletAddress preMap, p.2 ≤ 0) →
        bestToken post walletAddress preMap = (none, 0))
    ∧ ∀ (t : TxMeta) (settings : UserSettings),
        ¬ nativeSolSpent t < settings.solThreshold →
        (∀ p ∈ ownedDeltas t.postTokenBalances walletAddress
            (buildPreBalanceMap t.preTokenBalances walletAddress), p.2 ≤ 0) →
        extractTokenInfoFromTx (some ⟨some t⟩) settings walletAddress =
          some ⟨"unknown", "Unknown", 0, nativeSolSpent t⟩ := by
  refine ⟨?_, ?_, ?_⟩
  · intro mt d l1 l2 heq hd h1 h2
    rw [bestToken_eq_foldBestPairs, heq]
    exact foldBestPairs_first_max l1 l2 mt d (none, 0) hd h1 h2
  · intro h
    rw [bestToken_eq_foldBestPairs]
    exact foldBestPairs_keep _ (none, 0) h
  · intro t settings hspent hnp
    have hbest : bestToken t.postTokenBalances walletAddress
        (buildPreBalanceMap t.preTokenBalances walletAddress) = (none, 0) := by
      rw [bestToken_eq_foldBestPairs]
      exact foldBestPairs_keep _ (none, 0) hnp
    simp only [extractTokenInfoFromTx, if_neg hspent, hbest, Option.getD_none]

/-- Witness for C6: equal positive deltas on two mints resolve to the
first-listed mint. -/
theorem c6_largest_positive_delta_witness :
    bestToken [⟨"W", "M1", some 2⟩, ⟨"W", "M2", some 2⟩] "W" [] =
      (some "M1", 2) := by
  refine (c6_largest_positive_delta
    [⟨"W", "M1", some 2⟩, ⟨"W", "M2", some 2⟩] "W" []).1
    "M1" 2 [] [("M2", 2)] ?_ (by norm_num) (by simp) ?_
  · norm_num [ownedDeltas, mapGet]
  · intro p hp
    simp only [List.mem_singleton] at hp
    simp [hp]

/-- C8: on a tick with new signatures the cursor is set to the newest
fetched signature (independently of body processing, which happens after
the assignment); a tick whose fetched list starts with the current cursor
is a no-op emitting nothing; and replaying the same fetched list after any
tick emits nothing and leaves the cursor unchanged. -/
theorem c8_cursor_idempotence (monitoringStartTime : ℤ)
    (cursor : Option String) (newSigs : List SigInfo) :
    (∀ s0 rest, newSigs = s0 :: rest →
        collectNewSignatures cursor newSigs ≠ [] →
        (pollTick false monitoringStartTime cursor newSigs).1 =
          some s0.signature)
    ∧ (∀ s0 rest, newSigs = s0 :: rest → some s0.signature = cursor →
        pollTick false monitoringStartTime cursor newSigs = (cursor, []))
    ∧ pollTick false monitoringStartTime
        (pollTick false monitoringStartTime cursor newSigs).1 newSigs
        = ((pollTick false monitoringStartTime cursor newSigs).1, []) := by
  refine ⟨?_, ?_, ?_⟩
  · rintro s0 rest rfl hne
    by_cases hc : some s0.signature = cursor
    · exact absurd (by simp [collectNewSignatures, hc]) hne
    · have hcol : collectNewSignatures cursor (s0 :: rest) =
          s0 :: collectNewSignatures cursor rest := by
        simp [collectNewSignatures, hc]
      simp [pollTick, hcol]
  · rintro s0 rest rfl hc
    have hcol : collectNewSignatures cursor (s0 :: rest) = [] := by
      simp [collectNewSignatures, hc]
    simp [pollTick, hcol]
  · cases newSigs with
    | nil => simp [pollTick]
    | cons s0 rest =>
        by_cases hc : some s0.signature = cursor
        · have hcol : collectNewSignatures cursor (s0 :: rest) = [] := by
            simp [collectNewSignatures, hc]
          simp [pollTick, hcol]
        · have hcol : collectNewSignatures cursor (s0 :: rest) =
              s0 :: collectNewSignatures cursor rest := by
            simp [collectNewSignatures, hc]
          have hcol2 : collectNewSignatures (some s0.signature)
              (s0 :: rest) = [] := by
            simp [collectNewSignatures]
          simp [pollTick, hcol, hcol2]

/-- Witness for C8: cursor at "s1", fetch returns ["s2", "s1"]; the tick
advances the cursor to "s2". -/
theorem c8_cursor_idempotence_witness :
    (pollTick false 0 (some "s1")
        [⟨"s2", some 5⟩, ⟨"s1", some 3⟩]).1 = some "s2" :=
  (c8_cursor_idempotence 0 (some "s1")
      [⟨"s2", some 5⟩, ⟨"s1", some 3⟩]).1
    ⟨"s2", some 5⟩ [⟨"s1", some 3⟩] rfl (by decide)

/-- C2 counterexample: with an always-below-trigger subscriber, a window
for (1, "X") created at t=0 and UPDATED by a second signal at t=3,000,000
(well within the last hour of t=3,700,000) is nevertheless deleted by the
sweep run by an ingest for another asset at t=3,700,000, because the sweep
compares against the creation `timestamp`, which updates never refresh. -/
theorem c2_counterexample :
    mapGet (processTransaction 3000000 ⟨10, 5, [], false, [], [], []⟩ 1 "B"
        ⟨"X", "Unknown", 1, 1⟩
        (processTransaction 0 ⟨10, 5, [], false, [], [], []⟩ 1 "A"
          ⟨"X", "Unknown", 1, 1⟩ []).1).1 (1, "X")
      = some ⟨[("A", 1), ("B", 1)], 0, 0⟩
    ∧ mapGet (processTransaction 3700000 ⟨10, 5, [], false, [], [], []⟩ 1 "C"
        ⟨"Y", "Unknown", 1, 1⟩
        (processTransaction 3000000 ⟨10, 5, [], false, [], [], []⟩ 1 "B"
          ⟨"X", "Unknown", 1, 1⟩
          (processTransaction 0 ⟨10, 5, [], false, [], [], []⟩ 1 "A"
            ⟨"X", "Unknown", 1, 1⟩ []).1).1).1 (1, "X")
      = none := by
  have hAB : ("A" : String) ≠ "B" := by decide
  have hXY : ("X" : String) ≠ "Y" := by decide
  constructor
  · norm_num [processTransaction, mapGet, mapSet, mapDelete, sweepExpired,
      windowTTL, hAB]
  · norm_num [processTransaction, mapGet, mapSet, mapDelete, sweepExpired,
      windowTTL, hAB, hXY, hXY.symm]

/-- C2 (amended): the sweep run by an ingest at time `now` deletes exactly
those other windows whose CREATION timestamp is more than 1 hour old — the
stored `timestamp` is set when the window is created and is never refreshed
by later signals (the updated window keeps its original `timestamp` and
`firstSeen`), and every window surviving an ingest was created within the
last hour. -/
theorem c2_sweep_uses_creation_time (now : ℤ) (settings : UserSettings)
    (c : ℤ) (w : String) (ti : TokenInfo) (st : AggState)
    (hnd : (st.map Prod.fst).Nodup) :
    (∀ k win, k ≠ (c, ti.tokenAddress) → mapGet st k = some win →
        mapGet (processTransaction now settings c w ti st).1 k =
          if now - win.timestamp ≤ windowTTL then some win else none)
    ∧ (∀ win win1, mapGet st (c, ti.tokenAddress) = some win →
        mapGet (processTransaction now settings c w ti st).1
            (c, ti.tokenAddress) = some win1 →
        win1.timestamp = win.timestamp ∧ win1.firstSeen = win.firstSeen)
    ∧ (∀ k win1,
        mapGet (processTransaction now settings c w ti st).1 k = some win1 →
        now - win1.timestamp ≤ windowTTL) := by
  refine ⟨?_, ?_, ?_⟩
  · intro k win hk hwin
    have hk2 : (c, ti.tokenAddress) ≠ k := fun h => hk h.symm
    rcases hget : mapGet st (c, ti.tokenAddress) with _ | oldwin
    · rw [processTransaction_fresh now settings c w ti st hget]
      by_cases hfire : settings.requiredWallets ≤ 1 ∧
          settings.solThreshold ≤ ti.solAmount
      · rw [if_pos hfire]
        exact mapGet_sweepExpired_some now st k win hnd hwin
      · rw [if_neg hfire]
        have hnd2 := nodup_keys_mapSet st (c, ti.tokenAddress)
          (⟨[(w, ti.solAmount)], now, now⟩ : Window) hnd
        refine mapGet_sweepExpired_some now _ k win hnd2 ?_
        rw [mapGet_mapSet_ne _ _ _ _ hk2, hwin]
    · rw [processTransaction_existing now settings c w ti st oldwin hget]
      dsimp only
      have hnd2 := nodup_keys_mapSet st (c, ti.tokenAddress)
        (⟨mapSet oldwin.buyers w
            ((mapGet oldwin.buyers w).getD 0 + ti.solAmount),
          oldwin.timestamp, oldwin.firstSeen⟩ : Window) hnd
      by_cases hfire : settings.requiredWallets ≤
          (mapSet oldwin.buyers w
            ((mapGet oldwin.buyers w).getD 0 + ti.solAmount)).length ∧
          settings.solThreshold ≤
          ((mapSet oldwin.buyers w
            ((mapGet oldwin.buyers w).getD 0 + ti.solAmount)).map
              Prod.snd).sum
      · rw [if_pos hfire]
        have hnd3 := nodup_keys_sublist _ _
          (mapDelete_sublist _ (c, ti.tokenAddress)) hnd2
        refine mapGet_sweepExpired_some now _ k win hnd3 ?_
        rw [mapGet_mapDelete_ne _ _ _ hk2, mapGet_mapSet_ne _ _ _ _ hk2,
          hwin]
      · rw [if_neg hfire]
        refine mapGet_sweepExpired_some now _ k win hnd2 ?_
        rw [mapGet_mapSet_ne _ _ _ _ hk2, hwin]
  · intro win win1 hwin hwin1
    rw [processTransaction_existing now settings c w ti st win hwin] at hwin1
    dsimp only at hwin1
    have hnd2 := nodup_keys_mapSet st (c, ti.tokenAddress)
      (⟨mapSet win.buyers w ((mapGet win.buyers w).getD 0 + ti.solAmount),
        win.timestamp, win.firstSeen⟩ : Window) hnd
    by_cases hfire : settings.requiredWallets ≤
        (mapSet win.buyers w
          ((mapGet win.buyers w).getD 0 + ti.solAmount)).length ∧
        settings.solThreshold ≤
        ((mapSet win.buyers w
          ((mapGet win.buyers w).getD 0 + ti.solAmount)).map Prod.snd).sum
    · rw [if_pos hfire] at hwin1
      dsimp only at hwin1
      rw [mapGet_sweepExpired_none now _ _
        (mapGet_mapDelete_self _ _ hnd2)] at hwin1
      exact absurd hwin1 (by simp)
    · rw [if_neg hfire] at hwin1
      dsimp only at hwin1
      rw [mapGet_sweepExpired_some now _ _ _ hnd2
        (mapGet_mapSet_self _ _ _)] at hwin1
      by_cases httl : now - win.timestamp ≤ windowTTL
      · rw [if_pos httl] at hwin1
        simp only [Option.some.injEq] at hwin1
        subst hwin1
        exact ⟨rfl, rfl⟩
      · rw [if_neg httl] at hwin1
        exact absurd hwin1 (by simp)
  · intro k win1 hwin1
    rcases hget : mapGet st (c, ti.tokenAddress) with _ | oldwin
    · rw [processTransaction_fresh now settings c w ti st hget] at hwin1
      by_cases hfire : settings.requiredWallets ≤ 1 ∧
          settings.solThreshold ≤ ti.solAmount
      · rw [if_pos hfire] at hwin1
        dsimp only at hwin1
        exact mapGet_sweepExpired_ttl now _ _ _ hwin1
      · rw [if_neg hfire] at hwin1
        dsimp only at hwin1
        exact mapGet_sweepExpired_ttl now _ _ _ hwin1
    · rw [processTransaction_existing now settings c w ti st oldwin hget]
        at hwin1
      dsimp only at hwin1
      by_cases hfire : settings.requiredWallets ≤
          (mapSet oldwin.buyers w
            ((mapGet oldwin.buyers w).getD 0 + ti.solAmount)).length ∧
          settings.solThreshold ≤
          ((mapSet oldwin.buyers w
            ((mapGet oldwin.buyers w).getD 0 + ti.solAmount)).map
              Prod.snd).sum
      · rw [if_pos hfire] at hwin1
        dsimp only at hwin1
        exact mapGet_sweepExpired_ttl now _ _ _ hwin1
      · rw [if_neg hfire] at hwin1
        dsimp only at hwin1
        exact mapGet_sweepExpired_ttl now _ _ _ hwin1

/-- Witness for C2 (amended): an ingest for asset "X" at t=3,700,000
sweeps away the "Y" window created at t=0. -/
theorem c2_sweep_uses_creation_time_witness :
    mapGet (processTransaction 3700000 ⟨10, 5, [], false, [], [], []⟩ 1 "C"
        ⟨"X", "Unknown", 1, 1⟩
        [((1, "Y"), ⟨[("B", 1)], 0, 0⟩)]).1 (1, "Y") = none := by
  have h := (c2_sweep_uses_creation_time 3700000 ⟨10, 5, [], false, [], [], []⟩
      1 "C" ⟨"X", "Unknown", 1, 1⟩ [((1, "Y"), ⟨[("B", 1)], 0, 0⟩)]
      (by simp)).1
    (1, "Y") ⟨[("B", 1)], 0, 0⟩ (by decide) (by simp [mapGet])
  rwa [if_neg (by norm_num [windowTTL])] at h

/-- C3: the trigger fires exactly when, after folding the signal into the
window, `buyerCount >= requiredWallets` and `totalSpent >= solThreshold`;
and for a subscriber with `requiredWallets = 3`, `solThreshold = 0.5`,
three signals for one asset from three distinct wallets totalling at least
0.5 SOL yield no alert on the first two ingests, exactly one alert (with
the per-wallet spend map and the total) on the third, delete the window,
and a fourth signal afterwards starts a fresh window. -/
theorem c3_quorum_trigger (settings : UserSettings) :
    (∀ (now : ℤ) (c : ℤ) (w : String) (ti : TokenInfo) (st : AggState),
      (processTransaction now settings c w ti st).2.isSome ↔
        (settings.requiredWallets ≤
            (mapSet ((mapGet st (c, ti.tokenAddress)).getD
                ⟨[], now, now⟩).buyers w
              ((mapGet ((mapGet st (c, ti.tokenAddress)).getD
                  ⟨[], now, now⟩).buyers w).getD 0 + ti.solAmount)).length
          ∧ settings.solThreshold ≤
            ((mapSet ((mapGet st (c, ti.tokenAddress)).getD
                ⟨[], now, now⟩).buyers w
              ((mapGet ((mapGet st (c, ti.tokenAddress)).getD
                  ⟨[], now, now⟩).buyers w).getD 0 + ti.solAmount)).map
                Prod.snd).sum))
    ∧ (settings.requiredWallets = 3 → settings.solThreshold = 1/2 →
      ∀ (c : ℤ) (asset : String) (w1 w2 w3 : String)
        (ti1 ti2 ti3 : TokenInfo) (t1 t2 t3 : ℤ) (st0 : AggState),
        w1 ≠ w2 → w1 ≠ w3 → w2 ≠ w3 →
        ti1.tokenAddress = asset → ti2.tokenAddress = asset →
        ti3.tokenAddress = asset →
        (st0.map Prod.fst).Nodup →
        mapGet st0 (c, asset) = none →
        t1 ≤ t2 → t2 ≤ t3 → t3 - t1 ≤ windowTTL →
        1/2 ≤ ti1.solAmount + ti2.solAmount + ti3.solAmount →
        (processTransaction t1 settings c w1 ti1 st0).2 = none
        ∧ (processTransaction t2 settings c w2 ti2
            (processTransaction t1 settings c w1 ti1 st0).1).2 = none
        ∧ (processTransaction t3 settings c w3 ti3
            (processTransaction t2 settings c w2 ti2
              (processTransaction t1 settings c w1 ti1 st0).1).1).2
          = some ⟨c, asset, ti3.tokenName,
              [(w1, ti1.solAmount), (w2, ti2.solAmount),
               (w3, ti3.solAmount)],
              ti1.solAmount + ti2.solAmount + ti3.solAmount⟩
        ∧ mapGet (processTransaction t3 settings c w3 ti3
            (processTransaction t2 settings c w2 ti2
              (processTransaction t1 settings c w1 ti1 st0).1).1).1
            (c, asset) = none
        ∧ ∀ (w4 : String) (ti4 : TokenInfo) (t4 : ℤ),
            ti4.tokenAddress = asset →
            mapGet (processTransaction t4 settings c w4 ti4
                (processTransaction t3 settings c w3 ti3
                  (processTransaction t2 settings c w2 ti2
                    (processTransaction t1 settings c w1 ti1
                      st0).1).1).1).1 (c, asset)
              = some ⟨[(w4, ti4.solAmount)], t4, t4⟩) := by
  constructor
  · intro now c w ti st
    rcases hget : mapGet st (c, ti.tokenAddress) with _ | win
    · rw [processTransaction_fresh now settings c w ti st hget]
      by_cases hfire : settings.requiredWallets ≤ 1 ∧
          settings.solThreshold ≤ ti.solAmount
      · rw [if_pos hfire]
        simp [mapSet_nil, mapGet_nil, hfire.1, hfire.2]
      · rw [if_neg hfire]
        simp only [Option.getD_some, Option.getD_none, Option.isSome_none,
          mapSet_nil, mapGet_nil, zero_add, List.length_cons,
          List.length_nil, List.map_cons, List.map_nil, List.sum_cons,
          List.sum_nil, add_zero, Bool.false_eq_true, false_iff]
        simpa using hfire
    · rw [processTransaction_existing now settings c w ti st win hget]
      dsimp only
      simp only [Option.getD_some]
      by_cases hfire : settings.requiredWallets ≤
          (mapSet win.buyers w
            ((mapGet win.buyers w).getD 0 + ti.solAmount)).length ∧
          settings.solThreshold ≤
          ((mapSet win.buyers w
            ((mapGet win.buyers w).getD 0 + ti.solAmount)).map Prod.snd).sum
      · rw [if_pos hfire]
        simpa using hfire
      · rw [if_neg hfire]
        simpa using hfire
  · intro hRW hTH c asset w1 w2 w3 ti1 ti2 ti3 t1 t2 t3 st0
      hw12 hw13 hw23 hta1 hta2 hta3 hnd0 h0 ht12 ht23 httl hsum
    rcases ti1 with ⟨a1, n1, am1, s1⟩
    rcases ti2 with ⟨a2, n2, am2, s2⟩
    rcases ti3 with ⟨a3, n3, am3, s3⟩
    simp only at hta1 hta2 hta3 hsum
    have hta1s := hta1.symm
    subst hta1s
    have hta2s := hta2.symm
    subst hta2s
    have hta3s := hta3.symm
    subst hta3s
    -- step 1: fresh window
    have hno1 : ¬(settings.requiredWallets ≤ 1 ∧
        settings.solThreshold ≤
          (⟨asset, n1, am1, s1⟩ : TokenInfo).solAmount) := by
      rw [hRW]
      rintro ⟨ha, _⟩
      omega
    have h1 : processTransaction t1 settings c w1 ⟨asset, n1, am1, s1⟩ st0
        = (sweepExpired t1 (mapSet st0 (c, asset) ⟨[(w1, s1)], t1, t1⟩),
           none) := by
      rw [processTransaction_fresh t1 settings c w1 _ st0 h0, if_neg hno1]
    have hndM1 := nodup_keys_mapSet st0 (c, asset)
      (⟨[(w1, s1)], t1, t1⟩ : Window) hnd0
    have hndA1 : (((sweepExpired t1 (mapSet st0 (c, asset)
        ⟨[(w1, s1)], t1, t1⟩))).map Prod.fst).Nodup :=
      nodup_keys_sublist _ _ (sweepExpired_sublist _ _) hndM1
    have hget1 : mapGet (sweepExpired t1 (mapSet st0 (c, asset)
        ⟨[(w1, s1)], t1, t1⟩)) (c, asset) = some ⟨[(w1, s1)], t1, t1⟩ := by
      rw [mapGet_sweepExpired_some t1 _ _ _ hndM1 (mapGet_mapSet_self _ _ _),
        if_pos (by rw [sub_self]; norm_num [windowTTL])]
    -- step 2: second distinct wallet, still below quorum
    have hbuy2 : mapSet ([(w1, s1)] : List (String × ℚ)) w2
        ((mapGet ([(w1, s1)] : List (String × ℚ)) w2).getD 0 + s2)
        = [(w1, s1), (w2, s2)] := by
      rw [mapGet_cons_ne _ _ _ _ hw12, mapGet_nil,
        mapSet_cons_ne _ _ _ _ _ hw12, mapSet_nil]
      simp
    have h2 : processTransaction t2 settings c w2 ⟨asset, n2, am2, s2⟩
        (sweepExpired t1 (mapSet st0 (c, asset) ⟨[(w1, s1)], t1, t1⟩))
        = (sweepExpired t2 (mapSet
            (sweepExpired t1 (mapSet st0 (c, asset) ⟨[(w1, s1)], t1, t1⟩))
            (c, asset) ⟨[(w1, s1), (w2, s2)], t1, t1⟩), none) := by
      rw [processTransaction_existing t2 settings c w2 _ _ _ hget1]
      dsimp only
      rw [hbuy2]
      rw [if_neg]
      rw [hRW]
      rintro ⟨ha, _⟩
      simp at ha
    have hndM2 := nodup_keys_mapSet
      (sweepExpired t1 (mapSet st0 (c, asset) ⟨[(w1, s1)], t1, t1⟩))
      (c, asset) (⟨[(w1, s1), (w2, s2)], t1, t1⟩ : Window) hndA1
    have hget2 : mapGet (sweepExpired t2 (mapSet
        (sweepExpired t1 (mapSet st0 (c, asset) ⟨[(w1, s1)], t1, t1⟩))
        (c, asset) ⟨[(w1, s1), (w2, s2)], t1, t1⟩)) (c, asset)
        = some ⟨[(w1, s1), (w2, s2)], t1, t1⟩ := by
      rw [mapGet_sweepExpired_some t2 _ _ _ hndM2 (mapGet_mapSet_self _ _ _),
        if_pos (by simp only [windowTTL] at httl ⊢; omega)]
    have hndA2 : ((sweepExpired t2 (mapSet
        (sweepExpired t1 (mapSet st0 (c, asset) ⟨[(w1, s1)], t1, t1⟩))
        (c, asset) ⟨[(w1, s1), (w2, s2)], t1, t1⟩)).map Prod.fst).Nodup :=
      nodup_keys_sublist _ _ (sweepExpired_sublist _ _) hndM2
    -- step 3: third distinct wallet, quorum + threshold met
    have hbuy3 : mapSet ([(w1, s1), (w2, s2)] : List (String × ℚ)) w3
        ((mapGet ([(w1, s1), (w2, s2)] : List (String × ℚ)) w3).getD 0 + s3)
        = [(w1, s1), (w2, s2), (w3, s3)] := by
      rw [mapGet_cons_ne _ _ _ _ hw13, mapGet_cons_ne _ _ _ _ hw23,
        mapGet_nil, mapSet_cons_ne _ _ _ _ _ hw13,
        mapSet_cons_ne _ _ _ _ _ hw23, mapSet_nil]
      simp
    have hyes3 : settings.requiredWallets ≤
        ([(w1, s1), (w2, s2), (w3, s3)] : List (String × ℚ)).length ∧
        settings.solThreshold ≤
        (([(w1, s1), (w2, s2), (w3, s3)] : List (String × ℚ)).map
          Prod.snd).sum := by
      rw [hRW, hTH]
      constructor
      · simp
      · simp only [List.map_cons, List.map_nil, List.sum_cons, List.sum_nil,
          add_zero]
        linarith
    have h3 : processTransaction t3 settings c w3 ⟨asset, n3, am3, s3⟩
        (sweepExpired t2 (mapSet
          (sweepExpired t1 (mapSet st0 (c, asset) ⟨[(w1, s1)], t1, t1⟩))
          (c, asset) ⟨[(w1, s1), (w2, s2)], t1, t1⟩))
        = (sweepExpired t3 (mapDelete (mapSet
            (sweepExpired t2 (mapSet
              (sweepExpired t1 (mapSet st0 (c, asset)
                ⟨[(w1, s1)], t1, t1⟩))
              (c, asset) ⟨[(w1, s1), (w2, s2)], t1, t1⟩))
            (c, asset) ⟨[(w1, s1), (w2, s2), (w3, s3)], t1, t1⟩)
            (c, asset)),
           some ⟨c, asset, n3, [(w1, s1), (w2, s2), (w3, s3)],
             s1 + s2 + s3⟩) := by
      rw [processTransaction_existing t3 settings c w3 _ _ _ hget2]
      dsimp only
      rw [hbuy3, if_pos hyes3]
      simp only [List.map_cons, List.map_nil, List.sum_cons, List.sum_nil,
        add_zero, Prod.mk.injEq, add_assoc]
    have hndM3 := nodup_keys_mapSet
      (sweepExpired t2 (mapSet
        (sweepExpired t1 (mapSet st0 (c, asset) ⟨[(w1, s1)], t1, t1⟩))
        (c, asset) ⟨[(w1, s1), (w2, s2)], t1, t1⟩))
      (c, asset) (⟨[(w1, s1), (w2, s2), (w3, s3)], t1, t1⟩ : Window) hndA2
    have hget3 : mapGet (sweepExpired t3 (mapDelete (mapSet
        (sweepExpired t2 (mapSet
          (sweepExpired t1 (mapSet st0 (c, asset) ⟨[(w1, s1)], t1, t1⟩))
          (c, asset) ⟨[(w1, s1), (w2, s2)], t1, t1⟩))
        (c, asset) ⟨[(w1, s1), (w2, s2), (w3, s3)], t1, t1⟩)
        (c, asset))) (c, asset) = none :=
      mapGet_sweepExpired_none _ _ _ (mapGet_mapDelete_self _ _ hndM3)
    have hndA3 : ((sweepExpired t3 (mapDelete (mapSet
        (sweepExpired t2 (mapSet
          (sweepExpired t1 (mapSet st0 (c, asset) ⟨[(w1, s1)], t1, t1⟩))
          (c, asset) ⟨[(w1, s1), (w2, s2)], t1, t1⟩))
        (c, asset) ⟨[(w1, s1), (w2, s2), (w3, s3)], t1, t1⟩)
        (c, asset))).map Prod.fst).Nodup :=
      nodup_keys_sublist _ _ (sweepExpired_sublist _ _)
        (nodup_keys_sublist _ _ (mapDelete_sublist _ _) hndM3)
    refine ⟨by rw [h1], by rw [h1, h2], by rw [h1, h2, h3], ?_, ?_⟩
    · rw [h1, h2, h3]
      exact hget3
    · intro w4 ti4 t4 hta4
      rcases ti4 with ⟨a4, n4, am4, s4⟩
      simp only at hta4
      have hta4s := hta4.symm
      subst hta4s
      rw [h1, h2, h3]
      have hno4 : ¬(settings.requiredWallets ≤ 1 ∧
          settings.solThreshold ≤
            (⟨asset, n4, am4, s4⟩ : TokenInfo).solAmount) := by
        rw [hRW]
        rintro ⟨ha, _⟩
        omega
      rw [processTransaction_fresh t4 settings c w4 _ _ hget3, if_neg hno4]
      dsimp only
      have hndM4 := nodup_keys_mapSet _ (c, asset)
        (⟨[(w4, s4)], t4, t4⟩ : Window) hndA3
      rw [mapGet_sweepExpired_some t4 _ _ _ hndM4 (mapGet_mapSet_self _ _ _),
        if_pos (by rw [sub_self]; norm_num [windowTTL])]

/-- Witness for C3: wallets "A", "B", "C" spend 0.25 SOL each on asset
"X"; the third ingest fires the alert with the per-wallet map and total. -/
theorem c3_quorum_trigger_witness :
    (processTransaction 0 ⟨1/2, 3, [], false, [], [], []⟩ 1 "C"
        ⟨"X", "Unknown", 1, 1/4⟩
        (processTransaction 0 ⟨1/2, 3, [], false, [], [], []⟩ 1 "B"
          ⟨"X", "Unknown", 1, 1/4⟩
          (processTransaction 0 ⟨1/2, 3, [], false, [], [], []⟩ 1 "A"
            ⟨"X", "Unknown", 1, 1/4⟩ []).1).1).2
      = some ⟨1, "X", "Unknown", [("A", 1/4), ("B", 1/4), ("C", 1/4)],
          1/4 + 1/4 + 1/4⟩ :=
  ((c3_quorum_trigger ⟨1/2, 3, [], false, [], [], []⟩).2 rfl rfl
    1 "X" "A" "B" "C" ⟨"X", "Unknown", 1, 1/4⟩ ⟨"X", "Unknown", 1, 1/4⟩
    ⟨"X", "Unknown", 1, 1/4⟩ 0 0 0 []
    (by decide) (by decide) (by decide) rfl rfl rfl (by simp) rfl
    (le_refl 0) (le_refl 0) (by norm_num [windowTTL])
    (by norm_num)).2.2.1

/-- C1 counterexample: with solThreshold = 0.5 and requiredWallets = 2,
wallet A's and wallet B's transactions each spending 0.3 SOL (and each
gaining asset "X") are rejected by the classifier, so processing both
leaves the window store empty and dispatches no alert — contrary to the
claimed alert with totalSpent = 0.6 and buyerCount = 2. -/
theorem c1_counterexample :
    monitorProcessTx 0 ⟨1/2, 2, [], false, [], [], []⟩ 1 "A"
      (some ⟨some ⟨some [1000000000], some [700000000], [],
        [⟨"A", "X", some 100⟩]⟩⟩) [] = ([], none)
    ∧ monitorProcessTx 900000 ⟨1/2, 2, [], false, [], [], []⟩ 1 "B"
      (some ⟨some ⟨some [1000000000], some [700000000], [],
        [⟨"B", "X", some 50⟩]⟩⟩) [] = ([], none) := by
  constructor <;>
    norm_num [monitorProcessTx, extractTokenInfoFromTx, nativeSolSpent,
      jsMax, LAMPORTS_PER_SOL]

/-- C1 (amended): each 0.3 SOL transaction is rejected by the classifier
(per-transaction spend below the subscriber's 0.5 solThreshold), so the
polling pipeline creates no window and dispatches no alert for the claimed
scenario; the claimed behaviour — one alert with totalSpent = 0.6,
buyerCount = 2, window deleted, and a later signal starting a new window
from zero — holds only when the two 0.3 SOL signals are handed directly to
the aggregator, bypassing the classifier's threshold check. -/
theorem c1_alert_only_at_aggregator_level :
    extractTokenInfoFromTx
      (some ⟨some ⟨some [1000000000], some [700000000], [],
        [⟨"A", "X", some 100⟩]⟩⟩)
      ⟨1/2, 2, [], false, [], [], []⟩ "A" = none
    ∧ monitorProcessTx 0 ⟨1/2, 2, [], false, [], [], []⟩ 1 "A"
      (some ⟨some ⟨some [1000000000], some [700000000], [],
        [⟨"A", "X", some 100⟩]⟩⟩) [] = ([], none)
    ∧ monitorProcessTx 900000 ⟨1/2, 2, [], false, [], [], []⟩ 1 "B"
      (some ⟨some ⟨some [1000000000], some [700000000], [],
        [⟨"B", "X", some 50⟩]⟩⟩) [] = ([], none)
    ∧ (processTransaction 0 ⟨1/2, 2, [], false, [], [], []⟩ 1 "A"
        ⟨"X", "Unknown", 100, 3/10⟩ []).2 = none
    ∧ processTransaction 900000 ⟨1/2, 2, [], false, [], [], []⟩ 1 "B"
        ⟨"X", "Unknown", 50, 3/10⟩
        (processTransaction 0 ⟨1/2, 2, [], false, [], [], []⟩ 1 "A"
          ⟨"X", "Unknown", 100, 3/10⟩ []).1
      = ([], some ⟨1, "X", "Unknown", [("A", 3/10), ("B", 3/10)], 3/5⟩)
    ∧ (processTransaction 1000000 ⟨1/2, 2, [], false, [], [], []⟩ 1 "C"
        ⟨"X", "Unknown", 10, 1/10⟩
        (processTransaction 900000 ⟨1/2, 2, [], false, [], [], []⟩ 1 "B"
          ⟨"X", "Unknown", 50, 3/10⟩
          (processTransaction 0 ⟨1/2, 2, [], false, [], [], []⟩ 1 "A"
            ⟨"X", "Unknown", 100, 3/10⟩ []).1).1).1
      = [((1, "X"), ⟨[("C", 1/10)], 1000000, 1000000⟩)] := by
  have hAB : ("A" : String) ≠ "B" := by decide
  refine ⟨?_, ?_, ?_, ?_, ?_, ?_⟩
  · norm_num [extractTokenInfoFromTx, nativeSolSpent, jsMax,
      LAMPORTS_PER_SOL]
  · norm_num [monitorProcessTx, extractTokenInfoFromTx, nativeSolSpent,
      jsMax, LAMPORTS_PER_SOL]
  · norm_num [monitorProcessTx, extractTokenInfoFromTx, nativeSolSpent,
      jsMax, LAMPORTS_PER_SOL]
  · norm_num [processTransaction, mapGet, mapSet, mapDelete, sweepExpired,
      windowTTL]
  · norm_num [processTransaction, mapGet, mapSet, mapDelete, sweepExpired,
      windowTTL, hAB]
  · norm_num [processTransaction, mapGet, mapSet, mapDelete, sweepExpired,
      windowTTL, hAB]

end SyndicateAlpha
